import Mathlib

/-!
Verification of the Customized Nutrition System (src/app.py) against its
natural-language specification.  The Python program is shallowly embedded:
floating-point arithmetic is modelled over `ℚ`, pandas dataframes as lists of
records, the two `DataFrame.sample` calls (one seeded with `random_state=42`,
one drawing from the unseeded global RNG) as sampler parameters, and the
`ValueError` that `sample` raises when asked for more rows than exist as an
`Except` error.
-/

namespace NutritionSystem

/-- A row of the recipe dataframe after preprocessing (columns_to_keep,
lines 26-41 of app.py).  The `score` field models the transient `score`
column that `generate_meal_plan` writes onto the shared dataframe
(line 132); it is `none` until first assigned. -/
structure Recipe where
  recipeid : Nat
  name : String := ""
  description : String := ""
  recipecategory : String := ""
  recipeingredientparts : String := ""
  calories : ℚ := 0
  fatcontent : ℚ := 0
  saturatedfatcontent : ℚ := 0
  cholesterolcontent : ℚ := 0
  sodiumcontent : ℚ := 0
  carbohydratecontent : ℚ := 0
  fibercontent : ℚ := 0
  sugarcontent : ℚ := 0
  proteincontent : ℚ := 0
  score : Option ℚ := none
deriving DecidableEq

/-- Per-meal macro targets (the dict built at lines 116-123 of app.py). -/
structure MacroTarget where
  protein : ℚ
  carbs : ℚ
  fat : ℚ
deriving DecidableEq

/-- Python `abs` on the rationals modelling the floats. -/
def absQ (q : ℚ) : ℚ := if q < 0 then -q else q

/-- Mifflin-St Jeor BMR (lines 75-78 of app.py): the `if gender == "male"`
branch adds 5, every other gender string falls to the `else` branch
subtracting 161. -/
def mifflinBMR (age : ℚ) (gender : String) (weight height : ℚ) : ℚ :=
  if gender = "male" then 10 * weight + 6.25 * height - 5 * age + 5
  else 10 * weight + 6.25 * height - 5 * age - 161

/-- calculate_calories (lines 73-86 of app.py): goal adjustment with a
silent fall-through to maintenance for every goal other than
"weight loss" and "muscle gain". -/
def calculate_calories (age : ℚ) (gender : String) (weight height : ℚ) (goal : String) : ℚ :=
  let bmr := mifflinBMR age gender weight height
  if goal = "weight loss" then bmr - 500
  else if goal = "muscle gain" then bmr + 500
  else bmr

/-- BMI value (lines 91-92 of app.py): weight / (height in meters)^2. -/
def bmiValue (weight height : ℚ) : ℚ := weight / ((height / 100) ^ 2)

/-- BMI categorisation (lines 95-102 of app.py), with the source's exact
boundary constants 18.5, 24.9, 25, 29.9. -/
def bmiCategory (bmi : ℚ) : String :=
  if bmi < 18.5 then "Underweight"
  else if 18.5 ≤ bmi ∧ bmi < 24.9 then "Normal weight"
  else if 25 ≤ bmi ∧ bmi < 29.9 then "Overweight"
  else "Obesity"

/-- calculate_bmi (lines 89-104 of app.py): returns the pair of the BMI
value and its category string. -/
def calculate_bmi (weight height : ℚ) : ℚ × String :=
  (bmiValue weight height, bmiCategory (bmiValue weight height))

/-- The per-meal calorie split (lines 109-113 of app.py): 30% breakfast,
40% lunch, 30% dinner, in dict insertion order. -/
def meal_calories (calorie_needs : ℚ) : List (String × ℚ) :=
  [("breakfast", calorie_needs * 0.3),
   ("lunch", calorie_needs * 0.4),
   ("dinner", calorie_needs * 0.3)]

/-- The macro targets of one slot (the dict-comprehension body at
lines 117-121 of app.py). -/
def macroOf (calories : ℚ) : MacroTarget :=
  { protein := (calories * 0.2) / 4
    carbs := (calories * 0.5) / 4
    fat := (calories * 0.3) / 9 }

/-- macro_targets (lines 116-123 of app.py): one MacroTarget per meal slot. -/
def macro_targets (calorie_needs : ℚ) : List (String × MacroTarget) :=
  (meal_calories calorie_needs).map (fun p => (p.1, macroOf p.2))

/-- One behaviour of `DataFrame.sample(n)` without replacement: given the rows
and the requested size it returns the drawn rows.  The seeded call
`sample(n=5, random_state=42)` (line 159 of app.py) is one fixed such
function; the unseeded call `sample(remaining_needed)` (line 148) draws from
the global numpy RNG, so each run of the program corresponds to some such
function. -/
abbrev Sampler : Type := List Recipe → Nat → List Recipe

/-- A sampler behaves like pandas sampling without replacement: when the
request is not larger than the population it returns exactly `n` rows, all
drawn from the population. -/
def ValidSampler (s : Sampler) : Prop :=
  ∀ rows n, n ≤ rows.length → (s rows n).length = n ∧ ∀ r ∈ s rows n, r ∈ rows

/-- Errors the embedded program can signal.  `sampleTooLarge` is the
`ValueError` pandas raises when `sample(n)` asks for more rows than the
dataframe holds.  `emptyCatalog` is modelled from the spec: the spec's
`EmptyCatalog` error kind (spec section 7); `generate_meal_plan` in app.py
has no such check and never produces it. -/
inductive PlanError where
  | sampleTooLarge : PlanError
  | emptyCatalog : PlanError
deriving DecidableEq

instance {ε α : Type} [DecidableEq ε] [DecidableEq α] : DecidableEq (Except ε α) := fun x y =>
  match x, y with
  | .ok a, .ok b =>
      if h : a = b then .isTrue (by rw [h]) else .isFalse (fun hc => h (by cases hc; rfl))
  | .error a, .error b =>
      if h : a = b then .isTrue (by rw [h]) else .isFalse (fun hc => h (by cases hc; rfl))
  | .ok _, .error _ => .isFalse (fun hc => Except.noConfusion hc)
  | .error _, .ok _ => .isFalse (fun hc => Except.noConfusion hc)

/-- pandas `DataFrame.sample(n)`: raises when `n` exceeds the number of rows,
otherwise draws `n` rows according to the sampler. -/
def pandasSample (s : Sampler) (rows : List Recipe) (n : Nat) : Except PlanError (List Recipe) :=
  if n ≤ rows.length then .ok (s rows n) else .error .sampleTooLarge

/-- The score written by lines 132-136 of app.py onto a row: the sum of the
absolute deviations of protein, carbohydrate and SATURATED-fat content from
the slot's targets. -/
def rowScore (r : Recipe) (t : MacroTarget) : ℚ :=
  absQ (r.proteincontent - t.protein) +
    absQ (r.carbohydratecontent - t.carbs) +
    absQ (r.saturatedfatcontent - t.fat)

/-- The assignment `data["score"] = ...` (lines 132-136 of app.py): writes
the slot's score onto every row of the shared dataframe, keeping row order. -/
def assignScores (rows : List Recipe) (t : MacroTarget) : List Recipe :=
  rows.map (fun r => { r with score := some (rowScore r t) })

/-- The value of the score column of a row (every row carries a score by the
time the column is read). -/
def scoreVal (r : Recipe) : ℚ := r.score.getD 0

/-- Insert a row into a score-sorted list. -/
def insertByScore (r : Recipe) : List Recipe → List Recipe
  | [] => [r]
  | x :: xs => if scoreVal x ≤ scoreVal r then x :: insertByScore r xs else r :: x :: xs

/-- Deterministic model of `data.sort_values("score")` (line 139 of app.py):
an insertion sort ascending on the score column, returning a sorted copy
(pandas itself uses an unstable but deterministic quicksort; no property at
stake depends on the order among rows of equal score). -/
def sortByScore : List Recipe → List Recipe
  | [] => []
  | r :: rs => insertByScore r (sortByScore rs)

/-- The usage-count increments of lines 152-153 of app.py: one increment of
`recipe_usage_count` per row of the candidate frame. -/
def bumpAll (rows : List Recipe) (m : Nat → Nat) : Nat → Nat :=
  rows.foldl (fun m r => fun k => if k = r.recipeid then m k + 1 else m k) m

/-- The run-local state threaded through the slot loop of
`generate_meal_plan`: the shared dataframe `data` (mutated by the score
assignment), the `used_recipes` set, the `recipe_usage_count` dict, and an
instrumentation flag recording whether the unseeded `sample` call of
line 148 was reached (true exactly when some slot took the backfill branch,
i.e. consulted the global RNG). -/
structure EngineState where
  data : List Recipe
  used : List Nat
  usage : Nat → Nat
  usedRng : Bool

/-- The backfill branch of lines 144-149 of app.py: when fewer than 5
candidates remain, draw the missing rows from the already-used rows of the
dataframe via the unseeded sampler `u`. -/
def backfillStep (u : Sampler) (st : EngineState) (data pot1 : List Recipe) :
    Except PlanError (List Recipe) :=
  if pot1.length < 5 then
    match pandasSample u (data.filter fun r => st.used.contains r.recipeid) (5 - pot1.length) with
    | .ok additional => .ok (pot1 ++ additional)
    | .error e => .error e
  else .ok pot1

/-- Lines 151-164 of app.py: bump the usage counts once per candidate row
(the counts after the bump are `bumpAll pot2 st.usage`), drop candidates
used more than twice, draw 5 rows via the seeded sampler, record them as
used and commit the slot. -/
def selectStep (sSeed : Sampler) (st : EngineState) (data pot1 pot2 : List Recipe) :
    Except PlanError (List Recipe × EngineState) :=
  match pandasSample sSeed
      (pot2.filter fun r => decide (bumpAll pot2 st.usage r.recipeid ≤ 2)) 5 with
  | .error e => .error e
  | .ok selected =>
      .ok (selected,
        { data := data
          used := st.used ++ selected.map (fun r => r.recipeid)
          usage := bumpAll pot2 st.usage
          usedRng := st.usedRng || decide (pot1.length < 5) })

/-- Lines 139-142 of app.py: sort the scored dataframe ascending by score,
take the top 20, and drop rows whose identifier is already used. -/
def slotPool (st : EngineState) (t : MacroTarget) : List Recipe :=
  ((sortByScore (assignScores st.data t)).take 20).filter
    fun r => !(st.used.contains r.recipeid)

/-- One iteration of the slot loop of `generate_meal_plan`
(lines 130-164 of app.py) for the slot with macro targets `t`: score the
pool, take the 20 best, drop used recipes, backfill, filter by usage count
and select. -/
def processSlot (sSeed u : Sampler) (t : MacroTarget) (st : EngineState) :
    Except PlanError (List Recipe × EngineState) :=
  match backfillStep u st (assignScores st.data t) (slotPool st t) with
  | .error e => .error e
  | .ok pot2 => selectStep sSeed st (assignScores st.data t) (slotPool st t) pot2

/-- The slot loop of `generate_meal_plan`: runs the slots in order,
threading the state, and collects the per-slot selected rows. -/
def runSlots (sSeed u : Sampler) :
    List (String × MacroTarget) → EngineState →
      Except PlanError (List (String × List Recipe) × EngineState)
  | [], st => .ok ([], st)
  | (m, t) :: rest, st =>
    match processSlot sSeed u t st with
    | .error e => .error e
    | .ok (sel, st') =>
      match runSlots sSeed u rest st' with
      | .error e => .error e
      | .ok (plans, stF) => .ok ((m, sel) :: plans, stF)

/-- generate_meal_plan (lines 107-166 of app.py).  Besides the meal plan it
returns the final contents of the shared dataframe (observable because the
score assignment mutates it in place) and the flag telling whether the
unseeded RNG was consulted. -/
def generate_meal_plan (sSeed u : Sampler) (calorie_needs : ℚ) (data : List Recipe) :
    Except PlanError (List (String × List Recipe) × List Recipe × Bool) :=
  match runSlots sSeed u (macro_targets calorie_needs) ⟨data, [], fun _ => 0, false⟩ with
  | .error e => .error e
  | .ok (plan, stF) => .ok (plan, stF.data, stF.usedRng)

/-- Number of slots of a plan whose selected list holds the identifier. -/
def slotCount (rid : Nat) (plan : List (String × List Recipe)) : Nat :=
  plan.countP (fun p => p.2.any (fun r => r.recipeid == rid))

/-- A record with its transient score column cleared; two records agree on
every stored (persistent) field exactly when their images under
`clearScore` agree. -/
def clearScore (r : Recipe) : Recipe := { r with score := none }

/-- A catalog row holding only an identifier and a protein content; the
other nutrient fields are zero. -/
def mkRecipe (rid : Nat) (protein : ℚ) : Recipe :=
  { recipeid := rid, proteincontent := protein }

/-- A sampler drawing the first n rows: one concrete valid behaviour of
`DataFrame.sample`. -/
def firstRows : Sampler := fun rows n => rows.take n

/-- A sampler drawing the last n rows: another concrete valid behaviour of
`DataFrame.sample`. -/
def lastRows : Sampler := fun rows n => rows.drop (rows.length - n)

/-- A 50-recipe catalog: 25 recipes whose protein content matches the
breakfast and dinner protein target for a 1780 kcal budget, then 25
matching the lunch target.  On it the engine never takes the backfill
branch. -/
def examplePool : List Recipe :=
  ((List.range 25).map fun i => mkRecipe (i + 1) 26.7) ++
    ((List.range 25).map fun i => mkRecipe (i + 26) 35.6)

/-- A catalog of 5 distinct recipes (equal to the per-slot demand of 5). -/
def pool5 : List Recipe := (List.range 5).map fun i => mkRecipe (i + 1) 26.7

/-- A catalog of 10 distinct recipes, on which the third slot takes the
backfill branch and the outcome depends on the unseeded sampler. -/
def pool10 : List Recipe := (List.range 10).map fun i => mkRecipe (i + 1) 26.7

/-- The successful run of the engine on the 50-recipe catalog with both
samplers instantiated to `firstRows`. -/
def exampleRun : List (String × List Recipe) × List Recipe × Bool :=
  (generate_meal_plan firstRows firstRows 1780 examplePool).toOption.getD ([], [], false)

/-- The meal plan of the example run. -/
def examplePlan : List (String × List Recipe) := exampleRun.1

/-- The final contents of the shared dataframe after the example run. -/
def exampleData : List Recipe := exampleRun.2.1

end NutritionSystem

namespace NutritionSystem

theorem absQ_eq_abs (q : ℚ) : absQ q = |q| := by
  unfold absQ
  rcases lt_or_le q 0 with h | h
  · rw [if_pos h, abs_of_neg h]
  · rw [if_neg (not_lt.mpr h), abs_of_nonneg h]

theorem validSampler_firstRows : ValidSampler firstRows := by
  intro rows n h
  refine ⟨?_, ?_⟩
  · simpa [firstRows] using h
  · intro r hr
    exact List.take_subset n rows hr

theorem validSampler_lastRows : ValidSampler lastRows := by
  intro rows n h
  refine ⟨?_, ?_⟩
  · simp only [lastRows, List.length_drop]
    omega
  · intro r hr
    exact List.drop_subset _ rows hr

theorem pandasSample_ok {s : Sampler} {rows : List Recipe} {n : Nat} {out : List Recipe}
    (h : pandasSample s rows n = .ok out) : n ≤ rows.length ∧ out = s rows n := by
  unfold pandasSample at h
  by_cases hn : n ≤ rows.length
  · rw [if_pos hn] at h
    injection h with h1
    exact ⟨hn, h1.symm⟩
  · rw [if_neg hn] at h
    exact Except.noConfusion h

theorem bumpAll_cons (r : Recipe) (rs : List Recipe) (m : Nat → Nat) :
    bumpAll (r :: rs) m = bumpAll rs (fun k => if k = r.recipeid then m k + 1 else m k) := rfl

theorem bumpAll_le (rows : List Recipe) (m : Nat → Nat) (k : Nat) :
    m k ≤ bumpAll rows m k := by
  induction rows generalizing m with
  | nil => exact Nat.le_refl _
  | cons r rs ih =>
      rw [bumpAll_cons]
      refine Nat.le_trans ?_ (ih _)
      show m k ≤ if k = r.recipeid then m k + 1 else m k
      split
      · exact Nat.le_succ _
      · exact Nat.le_refl _

theorem bumpAll_mem (rows : List Recipe) (m : Nat → Nat) (k : Nat)
    (h : ∃ r ∈ rows, r.recipeid = k) : m k + 1 ≤ bumpAll rows m k := by
  induction rows generalizing m with
  | nil => simp at h
  | cons r rs ih =>
      rw [bumpAll_cons]
      rcases h with ⟨x, hx, hxk⟩
      rcases List.mem_cons.mp hx with h1 | h2
      · subst h1
        refine Nat.le_trans ?_ (bumpAll_le rs _ k)
        show m k + 1 ≤ if k = x.recipeid then m k + 1 else m k
        rw [if_pos hxk.symm]
      · refine Nat.le_trans ?_ (ih _ ⟨x, h2, hxk⟩)
        show m k + 1 ≤ (if k = r.recipeid then m k + 1 else m k) + 1
        split
        · exact Nat.le_succ _
        · exact Nat.le_refl _

theorem selectStep_ok {sSeed : Sampler} {st : EngineState} {data pot1 pot2 sel : List Recipe}
    {st' : EngineState} (h : selectStep sSeed st data pot1 pot2 = .ok (sel, st')) :
    pandasSample sSeed
        (pot2.filter fun r => decide (bumpAll pot2 st.usage r.recipeid ≤ 2)) 5 = .ok sel ∧
    st' = { data := data
            used := st.used ++ sel.map (fun r => r.recipeid)
            usage := bumpAll pot2 st.usage
            usedRng := st.usedRng || decide (pot1.length < 5) } := by
  unfold selectStep at h
  split at h
  · exact Except.noConfusion h
  · rename_i selected heq
    injection h with h1
    injection h1 with hsel hst
    subst hsel
    exact ⟨heq, hst.symm⟩

theorem processSlot_ok {sSeed u : Sampler} {t : MacroTarget} {st : EngineState}
    {sel : List Recipe} {st' : EngineState}
    (h : processSlot sSeed u t st = .ok (sel, st')) :
    ∃ pot2, backfillStep u st (assignScores st.data t) (slotPool st t) = .ok pot2 ∧
      selectStep sSeed st (assignScores st.data t) (slotPool st t) pot2 = .ok (sel, st') := by
  unfold processSlot at h
  split at h
  · exact Except.noConfusion h
  · rename_i pot2 heq
    exact ⟨pot2, heq, h⟩

theorem processSlot_usage_mono {sSeed u : Sampler} {t : MacroTarget} {st : EngineState}
    {sel : List Recipe} {st' : EngineState}
    (h : processSlot sSeed u t st = .ok (sel, st')) :
    ∀ k, st.usage k ≤ st'.usage k := by
  obtain ⟨pot2, _, hsel⟩ := processSlot_ok h
  obtain ⟨_, hst⟩ := selectStep_ok hsel
  intro k
  rw [hst]
  exact bumpAll_le _ _ _

theorem processSlot_sel_facts {sSeed u : Sampler} {t : MacroTarget} {st : EngineState}
    {sel : List Recipe} {st' : EngineState} (hv : ValidSampler sSeed)
    (h : processSlot sSeed u t st = .ok (sel, st')) :
    sel.length = 5 ∧
      ∀ r ∈ sel, st'.usage r.recipeid ≤ 2 ∧ st.usage r.recipeid + 1 ≤ st'.usage r.recipeid := by
  obtain ⟨pot2, _, hsel⟩ := processSlot_ok h
  obtain ⟨hps, hst⟩ := selectStep_ok hsel
  obtain ⟨hlen, hout⟩ := pandasSample_ok hps
  obtain ⟨hslen, hsub⟩ := hv _ 5 hlen
  constructor
  · rw [hout]
    exact hslen
  · intro r hr
    rw [hout] at hr
    have hr3 := hsub r hr
    have hr2 := List.mem_filter.mp hr3
    constructor
    · rw [hst]
      exact of_decide_eq_true hr2.2
    · rw [hst]
      exact bumpAll_mem pot2 st.usage r.recipeid ⟨r, hr2.1, rfl⟩

theorem processSlot_data {sSeed u : Sampler} {t : MacroTarget} {st : EngineState}
    {sel : List Recipe} {st' : EngineState}
    (h : processSlot sSeed u t st = .ok (sel, st')) :
    st'.data = assignScores st.data t := by
  obtain ⟨pot2, _, hsel⟩ := processSlot_ok h
  obtain ⟨_, hst⟩ := selectStep_ok hsel
  rw [hst]

theorem processSlot_flag_mono {sSeed u : Sampler} {t : MacroTarget} {st : EngineState}
    {sel : List Recipe} {st' : EngineState}
    (h : processSlot sSeed u t st = .ok (sel, st')) (hT : st.usedRng = true) :
    st'.usedRng = true := by
  obtain ⟨pot2, _, hsel⟩ := processSlot_ok h
  obtain ⟨_, hst⟩ := selectStep_ok hsel
  rw [hst]
  show (st.usedRng || _) = true
  rw [hT]
  rfl

theorem backfillStep_no_backfill (u : Sampler) (st : EngineState) (data pot1 : List Recipe)
    (h : ¬ pot1.length < 5) : backfillStep u st data pot1 = .ok pot1 := by
  unfold backfillStep
  rw [if_neg h]

theorem processSlot_indep {sSeed u1 u2 : Sampler} {t : MacroTarget} {st : EngineState}
    {sel : List Recipe} {st' : EngineState}
    (h : processSlot sSeed u1 t st = .ok (sel, st')) (hF : st'.usedRng = false) :
    processSlot sSeed u2 t st = .ok (sel, st') := by
  obtain ⟨pot2, hb, hsel⟩ := processSlot_ok h
  obtain ⟨hps, hst⟩ := selectStep_ok hsel
  have hflag : (st.usedRng || decide ((slotPool st t).length < 5)) = false := by
    rw [hst] at hF
    exact hF
  have hnb : ¬ (slotPool st t).length < 5 :=
    of_decide_eq_false (Bool.or_eq_false_iff.mp hflag).2
  have hpot2 : pot2 = slotPool st t := by
    rw [backfillStep_no_backfill u1 st _ _ hnb] at hb
    injection hb with h1
    exact h1.symm
  rw [hpot2] at hsel
  unfold processSlot
  rw [backfillStep_no_backfill u2 st _ _ hnb]
  exact hsel

theorem slotCount_cons (rid : Nat) (m : String) (sel : List Recipe)
    (plans : List (String × List Recipe)) :
    slotCount rid ((m, sel) :: plans) =
      slotCount rid plans + if sel.any (fun r => r.recipeid == rid) then 1 else 0 := by
  simp [slotCount, List.countP_cons]

theorem runSlots_count {sSeed u : Sampler} (hv : ValidSampler sSeed) :
    ∀ (slots : List (String × MacroTarget)) (st : EngineState)
      (plans : List (String × List Recipe)) (stF : EngineState),
      runSlots sSeed u slots st = .ok (plans, stF) →
      ∀ rid, slotCount rid plans = 0 ∨ slotCount rid plans + st.usage rid ≤ 2 := by
  intro slots
  induction slots with
  | nil =>
      intro st plans stF h rid
      simp only [runSlots] at h
      injection h with h1
      injection h1 with hp hs
      subst hp
      left
      rfl
  | cons slot rest ih =>
      intro st plans stF h rid
      obtain ⟨m, t⟩ := slot
      simp only [runSlots] at h
      split at h
      · exact Except.noConfusion h
      · rename_i sel st' hps
        split at h
        · exact Except.noConfusion h
        · rename_i plans' stF' hrs
          injection h with h1
          injection h1 with hp hs
          subst hp
          have hmono := processSlot_usage_mono hps rid
          have ihd := ih st' plans' stF' hrs rid
          rw [slotCount_cons]
          by_cases hmem : ∃ r ∈ sel, r.recipeid = rid
          · obtain ⟨r, hrsel, hrid⟩ := hmem
            have hany : (sel.any fun r => r.recipeid == rid) = true :=
              List.any_eq_true.mpr ⟨r, hrsel, by rw [hrid]; exact beq_self_eq_true rid⟩
            rw [hany, if_pos rfl]
            have hfacts := (processSlot_sel_facts hv hps).2 r hrsel
            rw [hrid] at hfacts
            obtain ⟨hcap, hinc⟩ := hfacts
            rcases ihd with h0 | hle
            · right
              omega
            · right
              omega
          · have hany : (sel.any fun r => r.recipeid == rid) = false := by
              rw [Bool.eq_false_iff]
              intro hc
              obtain ⟨r, hrsel, hrid⟩ := List.any_eq_true.mp hc
              exact hmem ⟨r, hrsel, eq_of_beq hrid⟩
            rw [hany, if_neg Bool.false_ne_true]
            rcases ihd with h0 | hle
            · left
              omega
            · right
              omega

theorem runSlots_shape {sSeed u : Sampler} (hv : ValidSampler sSeed) :
    ∀ (slots : List (String × MacroTarget)) (st : EngineState)
      (plans : List (String × List Recipe)) (stF : EngineState),
      runSlots sSeed u slots st = .ok (plans, stF) →
      plans.map Prod.fst = slots.map Prod.fst ∧ ∀ p ∈ plans, p.2.length = 5 := by
  intro slots
  induction slots with
  | nil =>
      intro st plans stF h
      simp only [runSlots] at h
      injection h with h1
      injection h1 with hp hs
      subst hp
      exact ⟨rfl, by intro p hp; exact absurd hp (List.not_mem_nil p)⟩
  | cons slot rest ih =>
      intro st plans stF h
      obtain ⟨m, t⟩ := slot
      simp only [runSlots] at h
      split at h
      · exact Except.noConfusion h
      · rename_i sel st' hps
        split at h
        · exact Except.noConfusion h
        · rename_i plans' stF' hrs
          injection h with h1
          injection h1 with hp hs
          subst hp
          obtain ⟨ihn, ihl⟩ := ih st' plans' stF' hrs
          constructor
          · simp only [List.map_cons, ihn]
          · intro p hp
            rcases List.mem_cons.mp hp with h1 | h2
            · subst h1
              exact (processSlot_sel_facts hv hps).1
            · exact ihl p h2

theorem assignScores_clearScore (rows : List Recipe) (t : MacroTarget) :
    (assignScores rows t).map clearScore = rows.map clearScore := by
  simp only [assignScores, List.map_map]
  refine List.map_congr_left ?_
  intro r _
  rfl

theorem runSlots_data {sSeed u : Sampler} :
    ∀ (slots : List (String × MacroTarget)) (st : EngineState)
      (plans : List (String × List Recipe)) (stF : EngineState),
      runSlots sSeed u slots st = .ok (plans, stF) →
      stF.data.map clearScore = st.data.map clearScore := by
  intro slots
  induction slots with
  | nil =>
      intro st plans stF h
      simp only [runSlots] at h
      injection h with h1
      injection h1 with hp hs
      subst hs
      rfl
  | cons slot rest ih =>
      intro st plans stF h
      obtain ⟨m, t⟩ := slot
      simp only [runSlots] at h
      split at h
      · exact Except.noConfusion h
      · rename_i sel st' hps
        split at h
        · exact Except.noConfusion h
        · rename_i plans' stF' hrs
          injection h with h1
          injection h1 with hp hs
          rw [← hs]
          have hchain := ih st' plans' stF' hrs
          rw [hchain, processSlot_data hps, assignScores_clearScore]

theorem runSlots_cons_ok {sSeed u : Sampler} {m : String} {t : MacroTarget}
    {rest : List (String × MacroTarget)} {st : EngineState} {sel : List Recipe}
    {st' : EngineState} {plans : List (String × List Recipe)} {stF : EngineState}
    (h1 : processSlot sSeed u t st = .ok (sel, st'))
    (h2 : runSlots sSeed u rest st' = .ok (plans, stF)) :
    runSlots sSeed u ((m, t) :: rest) st = .ok ((m, sel) :: plans, stF) := by
  simp only [runSlots, h1, h2]

theorem generate_ok_of_runSlots {sSeed u : Sampler} {c : ℚ} {pool : List Recipe}
    {plan : List (String × List Recipe)} {stF : EngineState}
    (h : runSlots sSeed u (macro_targets c) ⟨pool, [], fun _ => 0, false⟩ = .ok (plan, stF)) :
    generate_meal_plan sSeed u c pool = .ok (plan, stF.data, stF.usedRng) := by
  simp only [generate_meal_plan, h]

theorem runSlots_flag_mono {sSeed u : Sampler} :
    ∀ (slots : List (String × MacroTarget)) (st : EngineState)
      (plans : List (String × List Recipe)) (stF : EngineState),
      runSlots sSeed u slots st = .ok (plans, stF) →
      st.usedRng = true → stF.usedRng = true := by
  intro slots
  induction slots with
  | nil =>
      intro st plans stF h hT
      simp only [runSlots] at h
      injection h with h1
      injection h1 with hp hs
      rw [← hs]
      exact hT
  | cons slot rest ih =>
      intro st plans stF h hT
      obtain ⟨m, t⟩ := slot
      simp only [runSlots] at h
      split at h
      · exact Except.noConfusion h
      · rename_i sel st' hps
        split at h
        · exact Except.noConfusion h
        · rename_i plans' stF' hrs
          injection h with h1
          injection h1 with hp hs
          rw [← hs]
          exact ih st' plans' stF' hrs (processSlot_flag_mono hps hT)

theorem runSlots_indep {sSeed u1 u2 : Sampler} :
    ∀ (slots : List (String × MacroTarget)) (st : EngineState)
      (plans : List (String × List Recipe)) (stF : EngineState),
      runSlots sSeed u1 slots st = .ok (plans, stF) → stF.usedRng = false →
      runSlots sSeed u2 slots st = .ok (plans, stF) := by
  intro slots
  induction slots with
  | nil =>
      intro st plans stF h hF
      exact h
  | cons slot rest ih =>
      intro st plans stF h hF
      obtain ⟨m, t⟩ := slot
      simp only [runSlots] at h
      split at h
      · exact Except.noConfusion h
      · rename_i sel st' hps
        split at h
        · exact Except.noConfusion h
        · rename_i plans' stF' hrs
          injection h with h1
          injection h1 with hp hs
          have hFF : stF'.usedRng = false := by
            rw [hs]
            exact hF
          have hst' : st'.usedRng = false := by
            cases hx : st'.usedRng
            · rfl
            · rw [runSlots_flag_mono rest st' plans' stF' hrs hx] at hFF
              exact Bool.noConfusion hFF
          rw [← hp, ← hs]
          exact runSlots_cons_ok (processSlot_indep hps hst') (ih st' plans' stF' hrs hFF)

/-- C1: under the default max-reuse-2 policy, in every returned meal plan a
recipe identifier appears in the selected lists of at most 2 meal slots:
each slot whose selection holds the identifier bumps its usage count by at
least one beforehand (lines 152-153 of app.py) and only retains candidates
whose count is at most 2 (line 156), so a third selecting slot is
impossible. -/
theorem generate_meal_plan_reuse_cap (sSeed u : Sampler) (hv : ValidSampler sSeed)
    (c : ℚ) (pool : List Recipe) (plan : List (String × List Recipe))
    (dataF : List Recipe) (flag : Bool)
    (h : generate_meal_plan sSeed u c pool = .ok (plan, dataF, flag)) :
    ∀ rid, slotCount rid plan ≤ 2 := by
  intro rid
  unfold generate_meal_plan at h
  split at h
  · exact Except.noConfusion h
  · rename_i p stF hrs
    injection h with h1
    injection h1 with hp hrest
    rw [← hp]
    rcases runSlots_count hv _ _ _ _ hrs rid with h0 | hle
    · rw [h0]
      exact Nat.zero_le 2
    · have hle2 : slotCount rid p + 0 ≤ 2 := hle
      omega

attribute [local semireducible] Rat.add Rat.mul Rat.sub Rat.inv Rat.ofScientific in
/-- Witness for C1: the successful run on the 50-recipe example catalog,
instantiated at recipe identifier 25 (selected in the breakfast slot). -/
theorem generate_meal_plan_reuse_cap_witness : slotCount 25 examplePlan ≤ 2 :=
  generate_meal_plan_reuse_cap firstRows firstRows validSampler_firstRows 1780 examplePool
    examplePlan exampleData false (by decide) 25

/-- C2 amended: whenever generate_meal_plan returns a plan it has exactly
the three slots breakfast, lunch, dinner with exactly 5 recipes each; but
the engine does not relax the reuse cap, so on a non-exhausted pool it can
instead fail with a sampling error (see the counterexample with 5 distinct
recipes). -/
theorem generate_meal_plan_five_per_slot (sSeed u : Sampler) (hv : ValidSampler sSeed)
    (c : ℚ) (pool : List Recipe) (plan : List (String × List Recipe))
    (dataF : List Recipe) (flag : Bool)
    (h : generate_meal_plan sSeed u c pool = .ok (plan, dataF, flag)) :
    plan.map Prod.fst = ["breakfast", "lunch", "dinner"] ∧
      ∀ p ∈ plan, p.2.length = 5 := by
  unfold generate_meal_plan at h
  split at h
  · exact Except.noConfusion h
  · rename_i p stF hrs
    injection h with h1
    injection h1 with hp hrest
    rw [← hp]
    obtain ⟨hnames, hlens⟩ := runSlots_shape hv _ _ _ _ hrs
    exact ⟨hnames, hlens⟩

attribute [local semireducible] Rat.add Rat.mul Rat.sub Rat.inv Rat.ofScientific in
/-- Witness for C2 amended: the example run has the three named slots with
5 recipes each. -/
theorem generate_meal_plan_five_per_slot_witness :
    examplePlan.map Prod.fst = ["breakfast", "lunch", "dinner"] ∧
      ∀ p ∈ examplePlan, p.2.length = 5 :=
  generate_meal_plan_five_per_slot firstRows firstRows validSampler_firstRows 1780 examplePool
    examplePlan exampleData false (by decide)

/-- C3 amended: a run that never reaches the unseeded backfill sample of
line 148 of app.py (flag false) is reproducible: its result does not depend
on the global RNG, so a second run with identical inputs returns the
identical plan.  Runs that do backfill depend on the unseeded global RNG
(see the counterexample). -/
theorem generate_meal_plan_deterministic_no_backfill (sSeed u1 u2 : Sampler)
    (c : ℚ) (pool : List Recipe) (plan : List (String × List Recipe))
    (dataF : List Recipe)
    (h : generate_meal_plan sSeed u1 c pool = .ok (plan, dataF, false)) :
    generate_meal_plan sSeed u2 c pool = .ok (plan, dataF, false) := by
  unfold generate_meal_plan at h
  split at h
  · exact Except.noConfusion h
  · rename_i p stF hrs
    injection h with h1
    injection h1 with hp h2
    injection h2 with hd hf
    have hgen := generate_ok_of_runSlots
      (@runSlots_indep sSeed u1 u2 _ _ _ _ hrs hf)
    rw [hp, hd, hf] at hgen
    exact hgen

attribute [local semireducible] Rat.add Rat.mul Rat.sub Rat.inv Rat.ofScientific in
/-- Witness for C3 amended: the example run takes no backfill, so swapping
the unseeded sampler does not change its output. -/
theorem generate_meal_plan_deterministic_no_backfill_witness :
    generate_meal_plan firstRows lastRows 1780 examplePool =
      .ok (examplePlan, exampleData, false) :=
  generate_meal_plan_deterministic_no_backfill firstRows firstRows lastRows 1780 examplePool
    examplePlan exampleData (by decide)

/-- C5 amended: the engine does mutate the shared pool, but only through
the transient score column (line 132 of app.py): every other stored field
of every record, and the row order and count, are unchanged after a run. -/
theorem generate_meal_plan_preserves_nonscore_fields (sSeed u : Sampler)
    (c : ℚ) (pool : List Recipe) (plan : List (String × List Recipe))
    (dataF : List Recipe) (flag : Bool)
    (h : generate_meal_plan sSeed u c pool = .ok (plan, dataF, flag)) :
    dataF.map clearScore = pool.map clearScore := by
  unfold generate_meal_plan at h
  split at h
  · exact Except.noConfusion h
  · rename_i p stF hrs
    injection h with h1
    injection h1 with hp h2
    injection h2 with hd hf
    rw [← hd]
    exact runSlots_data _ _ _ _ hrs

attribute [local semireducible] Rat.add Rat.mul Rat.sub Rat.inv Rat.ofScientific in
/-- Witness for C5 amended: on the example run the final dataframe agrees
with the input pool on everything but the score column. -/
theorem generate_meal_plan_preserves_nonscore_fields_witness :
    exampleData.map clearScore = examplePool.map clearScore :=
  generate_meal_plan_preserves_nonscore_fields firstRows firstRows 1780 examplePool
    examplePlan exampleData false (by decide)


attribute [local semireducible] Rat.add Rat.mul Rat.sub Rat.inv Rat.ofScientific in
/-- C9: for positive age, weight and height, the BMR is
10*weight + 6.25*height - 5*age + 5 for sex male and
10*weight + 6.25*height - 5*age - 161 for sex female, and the example
age 30, male, 80 kg, 180 cm with goal maintenance yields a calorie target
of 1780. -/
theorem calculate_calories_mifflin (age weight height : ℚ)
    (h1 : 0 < age) (h2 : 0 < weight) (h3 : 0 < height) :
    mifflinBMR age "male" weight height = 10 * weight + 6.25 * height - 5 * age + 5 ∧
    mifflinBMR age "female" weight height = 10 * weight + 6.25 * height - 5 * age - 161 ∧
    mifflinBMR 30 "male" 80 180 = 1780 ∧
    calculate_calories 30 "male" 80 180 "maintenance" = 1780 := by
  refine ⟨?_, ?_, ?_, ?_⟩
  · unfold mifflinBMR
    rw [if_pos rfl]
  · unfold mifflinBMR
    rw [if_neg (by decide)]
  · decide
  · decide

/-- Witness for C9 at age 30, weight 80, height 180. -/
theorem calculate_calories_mifflin_witness :
    mifflinBMR 30 "male" 80 180 = 10 * 80 + 6.25 * 180 - 5 * 30 + 5 ∧
    mifflinBMR 30 "female" 80 180 = 10 * 80 + 6.25 * 180 - 5 * 30 - 161 ∧
    mifflinBMR 30 "male" 80 180 = 1780 ∧
    calculate_calories 30 "male" 80 180 "maintenance" = 1780 :=
  calculate_calories_mifflin 30 80 180 (by norm_num) (by norm_num) (by norm_num)

attribute [local semireducible] Rat.add Rat.mul Rat.sub Rat.inv Rat.ofScientific in
/-- C7 counterexample: on the unrecognized goal "keto" the code does not
fail; it silently returns the maintenance result (the bare BMR), here 1780
for age 30, male, 80 kg, 180 cm.  There is no InvalidGoal failure path in
calculate_calories (lines 80-86 of app.py). -/
theorem calculate_calories_silent_fallthrough_cex :
    calculate_calories 30 "male" 80 180 "keto" =
      calculate_calories 30 "male" 80 180 "maintenance" ∧
    calculate_calories 30 "male" 80 180 "keto" = mifflinBMR 30 "male" 80 180 ∧
    calculate_calories 30 "male" 80 180 "keto" = 1780 := by
  refine ⟨by decide, by decide, by decide⟩

/-- C7 amended: the calorie-target computation returns bmr - 500 for goal
"weight loss", bmr + 500 for goal "muscle gain", and the bare BMR for every
other goal value, including unrecognized ones: it silently falls through to
the maintenance result instead of failing with InvalidGoal. -/
theorem calculate_calories_goal_cases (age : ℚ) (gender : String) (weight height : ℚ)
    (goal : String) (h1 : goal ≠ "weight loss") (h2 : goal ≠ "muscle gain") :
    calculate_calories age gender weight height "weight loss" =
      mifflinBMR age gender weight height - 500 ∧
    calculate_calories age gender weight height "muscle gain" =
      mifflinBMR age gender weight height + 500 ∧
    calculate_calories age gender weight height goal =
      mifflinBMR age gender weight height := by
  refine ⟨?_, ?_, ?_⟩
  · unfold calculate_calories
    rw [if_pos rfl]
  · unfold calculate_calories
    rw [if_neg (by decide), if_pos rfl]
  · unfold calculate_calories
    rw [if_neg h1, if_neg h2]

/-- Witness for C7 amended at the goal "maintenance". -/
theorem calculate_calories_goal_cases_witness :
    calculate_calories 30 "male" 80 180 "weight loss" =
      mifflinBMR 30 "male" 80 180 - 500 ∧
    calculate_calories 30 "male" 80 180 "muscle gain" =
      mifflinBMR 30 "male" 80 180 + 500 ∧
    calculate_calories 30 "male" 80 180 "maintenance" =
      mifflinBMR 30 "male" 80 180 :=
  calculate_calories_goal_cases 30 "male" 80 180 "maintenance" (by decide) (by decide)

attribute [local semireducible] Rat.add Rat.mul Rat.sub Rat.inv Rat.ofScientific in
/-- C6: the code's BMI categorisation is not the claimed partition with
boundaries 18.5 / 25 / 30: the chain at lines 95-102 of app.py uses
`18.5 <= bmi < 24.9` and `25 <= bmi < 29.9`, so the gap values 24.95 and
29.95 fall through to the final else and are categorised "Obesity",
where the claim requires Normal (resp. Overweight). -/
theorem bmiCategory_gap_at_boundary :
    bmiCategory 24.95 = "Obesity" ∧ bmiCategory 29.95 = "Obesity" ∧
    bmiCategory 24.85 = "Normal weight" ∧ bmiCategory 29.85 = "Overweight" := by
  refine ⟨by decide, by decide, by decide, by decide⟩

/-- C8: the three slot shares 0.3, 0.4, 0.3 sum the calorie budget back to
the total, and for every slot-calorie value the derived macro grams satisfy
protein*4 + carbs*4 + fat*9 = slotCalories exactly in rational arithmetic. -/
theorem macro_targets_energy_identity (c cal : ℚ) :
    ((meal_calories c).map Prod.snd).sum = c ∧
    (macroOf cal).protein = cal * 0.2 / 4 ∧
    (macroOf cal).carbs = cal * 0.5 / 4 ∧
    (macroOf cal).fat = cal * 0.3 / 9 ∧
    (macroOf cal).protein * 4 + (macroOf cal).carbs * 4 + (macroOf cal).fat * 9 = cal ∧
    macro_targets c = [("breakfast", macroOf (c * 0.3)), ("lunch", macroOf (c * 0.4)),
      ("dinner", macroOf (c * 0.3))] := by
  refine ⟨?_, rfl, rfl, rfl, ?_, ?_⟩
  · simp only [meal_calories, List.map_cons, List.map_nil, List.sum_cons, List.sum_nil]
    ring
  · simp only [macroOf]
    ring
  · simp only [macro_targets, meal_calories, List.map_cons, List.map_nil]

/-- C4: the score the engine writes onto each row (lines 132-136 of app.py)
is the sum of the absolute deviations of the protein, carbohydrate and
SATURATED-fat contents from the slot targets; the total-fat column
`fatcontent` is not consulted. -/
theorem assignScores_l1_formula (rows : List Recipe) (t : MacroTarget) :
    (assignScores rows t).map (fun r => r.score) =
      rows.map (fun r => some (|r.proteincontent - t.protein| +
        |r.carbohydratecontent - t.carbs| + |r.saturatedfatcontent - t.fat|)) := by
  simp only [assignScores, List.map_map]
  refine List.map_congr_left ?_
  intro r _
  simp [Function.comp, rowScore, absQ_eq_abs]

/-- C10 counterexample: on the empty recipe pool, generate_meal_plan does
not fail with the spec's EmptyCatalog before touching a slot; it processes
the first slot and fails inside it with the pandas sampling error raised by
the backfill call of line 148 of app.py. -/
theorem generate_meal_plan_empty_pool_cex :
    generate_meal_plan firstRows firstRows 1780 [] = .error .sampleTooLarge ∧
    generate_meal_plan firstRows firstRows 1780 [] ≠ .error .emptyCatalog := by
  refine ⟨by decide, by decide⟩

/-- C10 amended: on the empty recipe pool, generate_meal_plan always fails
with the sampling error raised during the first slot's backfill (whatever
the samplers and calorie budget); it never returns a meal plan with empty
slot lists, but there is no up-front EmptyCatalog check. -/
theorem generate_meal_plan_empty_pool_fails (sSeed u : Sampler) (c : ℚ) :
    generate_meal_plan sSeed u c [] = .error .sampleTooLarge := rfl

attribute [local semireducible] Rat.add Rat.mul Rat.sub Rat.inv Rat.ofScientific in
/-- C2 counterexample: a pool of 5 distinct recipes (exactly the per-slot
demand, hence not globally exhausted in the sense of InsufficientCatalog)
on which generate_meal_plan fails with the pandas sampling error at the
third slot instead of relaxing the reuse cap and returning 5 recipes per
slot. -/
theorem generate_meal_plan_backfill_failure_cex :
    pool5.length = 5 ∧ (pool5.map fun r => r.recipeid).Nodup ∧
    generate_meal_plan firstRows firstRows 1780 pool5 = .error .sampleTooLarge := by
  refine ⟨by decide, by decide, by decide⟩

attribute [local semireducible] Rat.add Rat.mul Rat.sub Rat.inv Rat.ofScientific in
/-- C3 counterexample: on a pool of 10 distinct recipes, two runs with
identical inputs but different draws of the unseeded global RNG (modelled
by the two samplers for the `sample` call of line 148 of app.py) produce
different results: one fails at the third slot, the other returns a plan. -/
theorem generate_meal_plan_unseeded_rng_cex :
    generate_meal_plan firstRows firstRows 1780 pool10 ≠
      generate_meal_plan firstRows lastRows 1780 pool10 := by
  decide

attribute [local semireducible] Rat.add Rat.mul Rat.sub Rat.inv Rat.ofScientific in
/-- C5 counterexample: after the successful run on the 50-recipe catalog
the shared dataframe handed back by the engine differs from the input pool:
the score assignment of line 132 of app.py mutated it in place. -/
theorem generate_meal_plan_mutates_pool_cex :
    generate_meal_plan firstRows firstRows 1780 examplePool =
      .ok (examplePlan, exampleData, false) ∧
    exampleData ≠ examplePool := by
  refine ⟨by decide, by decide⟩

end NutritionSystem
